import Mathlib

/-!
Verification of the QuizCanvas attempt-session controller.

The definitions below are a shallow embedding of the quiz page component
(the most complete variant, `src/unnamed/part_001`; the older
`src/frontend/src/pages/Quiz.js` is a strict subset of its behavior).
Component state hooks become record fields, the timer interval callback
becomes a step function, and each axios call is recorded in an explicit
call log.
-/

namespace QuizCanvas

/-- Network requests the quiz page can issue (the axios calls of
`src/unnamed/part_001`), recorded with their arguments. -/
inductive ApiCall where
  | getQuiz (quizId : Nat)
  | startAttempt (quizId : Nat)
  | resumeAttempt (attemptId : Nat)
  | endAttempt (attemptId : Nat)
  | submitAnswer (attemptId questionId selectedOption responseTime : Nat)
  | completeAttempt (attemptId : Nat)
  deriving DecidableEq, Repr

/-- Score summary returned by the complete-attempt endpoint
(`response.data.data`): `score` percentage, correct count, total count and
an optional explicit incorrect count (`incorrect_answers` may be absent). -/
structure ScoreResults where
  score : Int
  correct_answers : Int
  total_questions : Int
  incorrect_answers : Option Int
  deriving DecidableEq, Repr

/-- Incorrect-count shown on the results page, from lines 238-241 of
`src/unnamed/part_001`:
`results.incorrect_answers !== undefined ? results.incorrect_answers
 : results.total_questions - results.correct_answers`. -/
def displayedIncorrect (r : ScoreResults) : Int :=
  match r.incorrect_answers with
  | some v => v
  | none => r.total_questions - r.correct_answers

/-! ### Timer arming (lines 78-86 of `src/unnamed/part_001`)

`parseInt(params.get('timer'), 10)` followed by
`if (!isNaN(customTimer) && customTimer > 0) setTimeLeft(customTimer * 60);
 else if (quizData && quizData.time_limit) setTimeLeft(quizData.time_limit * 60);`
-/

/-- Decimal value of the longest digit prefix of a character list. -/
def digitsToNat (cs : List Char) : Nat :=
  cs.foldl (fun acc c => acc * 10 + (c.toNat - 48)) 0

/-- JS `parseInt(s, 10)`: skip leading whitespace, read an optional sign,
then the longest digit prefix; the result is NaN (modelled as `none`) when
no digit follows. -/
def jsParseIntStr (s : String) : Option Int :=
  let cs := s.data.dropWhile (fun c => c = ' ' ∨ c = '\t' ∨ c = '\n' ∨ c = '\r')
  match cs with
  | '-' :: rest =>
      let ds := rest.takeWhile (fun c => c.isDigit)
      if ds.isEmpty then none else some (-(digitsToNat ds : Int))
  | '+' :: rest =>
      let ds := rest.takeWhile (fun c => c.isDigit)
      if ds.isEmpty then none else some (digitsToNat ds : Int)
  | rest =>
      let ds := rest.takeWhile (fun c => c.isDigit)
      if ds.isEmpty then none else some (digitsToNat ds : Int)

/-- `parseInt(params.get('timer'), 10)`: `URLSearchParams.get` yields `null`
when the parameter is absent, and `parseInt(null, 10)` coerces it to the
string `"null"`, which parses to NaN. -/
def jsParseInt (timerParam : Option String) : Option Int :=
  match timerParam with
  | none => jsParseIntStr "null"
  | some s => jsParseIntStr s

/-- JS truthiness of `quizData.time_limit`: absent (`null`/`undefined`) and
`0` are falsy, any other number is truthy. -/
def timeLimitTruthy (timeLimit : Option Int) : Bool :=
  match timeLimit with
  | none => false
  | some t => t ≠ 0

/-- The armed countdown (seconds), mirroring lines 79-86: a parsed positive
`timer` query parameter wins, else a truthy quiz `time_limit`, else no
timer (`timeLeft` stays `null`). -/
def armTimer (timerParam : Option String) (timeLimit : Option Int) : Option Int :=
  match jsParseInt timerParam with
  | some ct =>
      if ct > 0 then some (ct * 60)
      else if timeLimitTruthy timeLimit then timeLimit.map (fun t => t * 60)
      else none
  | none =>
      if timeLimitTruthy timeLimit then timeLimit.map (fun t => t * 60)
      else none

/-! ### Conflict handling (lines 88-124 of `src/unnamed/part_001`) -/

/-- Outcome of the catch branch of `fetchQuizData` when the start-attempt
call fails: a 409 with `error_code === 'CONCURRENT_ATTEMPT'` surfaces the
existing attempt id for a user choice; anything else is a load failure. -/
inductive StartOutcome where
  | conflictPending (existingId : Nat)
  | failedLoad
  deriving DecidableEq, Repr

/-- Classification of a failed start-attempt response, from the condition
`error.response && error.response.status === 409 &&
 error.response.data?.error_code === 'CONCURRENT_ATTEMPT'` (lines 89-93). -/
def classifyStartError (hasResponse : Bool) (status : Nat)
    (errorCode : Option String) (existingId : Nat) : StartOutcome :=
  if hasResponse ∧ status = 409 ∧ errorCode = some "CONCURRENT_ATTEMPT" then
    StartOutcome.conflictPending existingId
  else
    StartOutcome.failedLoad

/-- Response of `POST /api/attempts/{id}/resume/`: the attempt id and an
optional `next_question` carrying a 1-based `question_number`. -/
structure ResumeResponse where
  attempt_id : Nat
  next_question : Option Nat
  deriving DecidableEq, Repr

/-- Result of resolving a start conflict: the recorded attempt id, the
current question index after resolution, and the calls issued. -/
structure ConflictResult where
  attemptId : Nat
  currentQuestionIndex : Int
  calls : List ApiCall
  deriving DecidableEq, Repr

/-- Resolution of a `CONCURRENT_ATTEMPT` conflict (lines 99-110): on
resume, one `resumeAttempt` call whose returned id is recorded and whose
`next_question.question_number - 1` becomes the index when present; on
restart, `endAttempt(existingId)` then `startAttempt(quizId)`, recording
the freshly returned id. -/
def handleConflict (quizId existingId : Nat) (resume : Bool)
    (resumeResp : ResumeResponse) (startResp : Nat) (curIdx : Int) :
    ConflictResult :=
  if resume then
    { attemptId := resumeResp.attempt_id
      currentQuestionIndex :=
        match resumeResp.next_question with
        | some qn => (qn : Int) - 1
        | none => curIdx
      calls := [ApiCall.resumeAttempt existingId] }
  else
    { attemptId := startResp
      currentQuestionIndex := curIdx
      calls := [ApiCall.endAttempt existingId, ApiCall.startAttempt quizId] }

/-! ### Countdown timer (lines 137-152 of `src/unnamed/part_001`)

The interval is armed by the effect only while `timeLeft > 0 && !quizCompleted`
and is cleared whenever `timeLeft` changes, so each callback execution
happens under a state satisfying that guard.  The callback computes
`newTime = prev - 1` and, exactly when `newTime === 0`, clears the interval
and invokes `submitQuiz()`.  `submitCalls` counts those invocations. -/

/-- Timer-relevant component state: `timeLeft` is `null` when no timer is
armed, `quizCompleted` mirrors the completion flag, and `submitCalls`
counts `submitQuiz()` invocations made by the timer. -/
structure TimerState where
  timeLeft : Option Int
  quizCompleted : Bool
  submitCalls : Nat
  deriving DecidableEq, Repr

/-- One interval callback, guarded by the arming condition of the effect
(`timeLeft > 0 && !quizCompleted`): decrement; at exactly zero also fire
`submitQuiz()` once. -/
def tick (s : TimerState) : TimerState :=
  match s.timeLeft with
  | none => s
  | some t =>
      if t > 0 ∧ s.quizCompleted = false then
        let newTime := t - 1
        if newTime = 0 then
          { s with timeLeft := some newTime, submitCalls := s.submitCalls + 1 }
        else
          { s with timeLeft := some newTime }
      else s

/-! ### Final submission (lines 25-41 of `src/unnamed/part_001`)

`submitQuiz` returns early only when `attemptId` is null; otherwise it sets
`submitting`, posts `complete`, on success stores the results and sets
`quizCompleted`, on any caught error sets the error message, and finally
clears `submitting`. -/

/-- Result of the awaited `POST /api/attempts/{id}/complete/` call: either
the score payload, or an axios error with the optional response status
(absent on a pure network failure). -/
inductive CompleteResponse where
  | ok (r : ScoreResults)
  | err (status : Option Nat)
  deriving DecidableEq, Repr

/-- Component state relevant to `submitQuiz`. -/
structure SubmitState where
  attemptId : Option Nat
  submitting : Bool
  quizCompleted : Bool
  results : Option ScoreResults
  errorMsg : Option String
  completeCalls : Nat
  deriving DecidableEq, Repr

/-- `submitQuiz` (lines 25-41), with the awaited network outcome passed in;
`completeCalls` counts complete-attempt requests actually issued. -/
def submitQuiz (s : SubmitState) (resp : CompleteResponse) : SubmitState :=
  match s.attemptId with
  | none => s
  | some _ =>
      match resp with
      | CompleteResponse.ok r =>
          { s with submitting := false, results := some r,
                   quizCompleted := true,
                   completeCalls := s.completeCalls + 1 }
      | CompleteResponse.err _ =>
          { s with submitting := false,
                   errorMsg := some "Failed to submit quiz",
                   completeCalls := s.completeCalls + 1 }

/-- The render branches of the component in source order (lines 224-441):
a set error renders the error page with its Back to Dashboard button,
before the completed-results branch; otherwise the quiz UI shows. -/
inductive ViewState where
  | failedView
  | completedView
  | activeView
  deriving DecidableEq, Repr

/-- View selection from component state, mirroring the early returns
`if (error) ...` then `if (quizCompleted && results) ...`. -/
def renderState (s : SubmitState) : ViewState :=
  if s.errorMsg.isSome then ViewState.failedView
  else if s.quizCompleted ∧ s.results.isSome then ViewState.completedView
  else ViewState.activeView

/-! ### Answer recording (lines 154-171 of `src/unnamed/part_001`) -/

/-- Answer-relevant component state: the local `answers` object keyed by
question id, plus the log of issued calls. -/
structure AnswerState where
  answers : Nat → Option Nat
  calls : List ApiCall

/-- `handleAnswerChange(questionId, selectedOption)`: synchronously merge
the selection into `answers`, then post the answer with the literal
`response_time: 5000`. -/
def handleAnswerChange (attemptId : Nat) (s : AnswerState)
    (questionId selectedOption : Nat) : AnswerState :=
  { answers := fun q => if q = questionId then some selectedOption else s.answers q
    calls := s.calls ++
      [ApiCall.submitAnswer attemptId questionId selectedOption 5000] }

/-- Completion of an in-flight submit-answer request: on success the code
only logs, on failure the catch branch only logs the error; either way no
component state is touched. -/
def submitAnswerResult (_success : Bool) (s : AnswerState) : AnswerState := s

/-! ### Navigation (lines 173-183 and the overview buttons, line 412) -/

/-- A navigation action: the Previous/Next buttons, or an overview button
jumping straight to question `i` (overview buttons exist exactly for the
indices of `questions`). -/
inductive NavOp where
  | next
  | prev
  | jump (i : Nat)
  deriving DecidableEq, Repr

/-- `handleNextQuestion`: advance only while
`currentQuestionIndex < questions.length - 1` (JS number comparison). -/
def handleNextQuestion (numQuestions idx : Int) : Int :=
  if idx < numQuestions - 1 then idx + 1 else idx

/-- `handlePreviousQuestion`: go back only while `currentQuestionIndex > 0`. -/
def handlePreviousQuestion (idx : Int) : Int :=
  if idx > 0 then idx - 1 else idx

/-- One navigation action on the current question index; a jump sets the
index of the clicked overview button. -/
def navigate (numQuestions : Int) : NavOp → Int → Int
  | NavOp.next, idx => handleNextQuestion numQuestions idx
  | NavOp.prev, idx => handlePreviousQuestion idx
  | NavOp.jump i, _ => (i : Int)

/-- Network calls issued by a navigation action: the three handlers touch
only `currentQuestionIndex`, no axios call appears in them. -/
def navigateCalls (_op : NavOp) : List ApiCall := []

/-- Folding a sequence of navigation actions over the index. -/
def navFold (numQuestions : Int) (ops : List NavOp) (idx : Int) : Int :=
  ops.foldl (fun i op => navigate numQuestions op i) idx

/-- Component state right after a timer of `m` minutes-worth of seconds is
armed on a fresh, uncompleted attempt. -/
def timerStart (m : Nat) : TimerState :=
  { timeLeft := some (m : Int), quizCompleted := false, submitCalls := 0 }

/-- A sample score payload used in concrete evaluations. -/
def sampleResults : ScoreResults :=
  { score := 70
    correct_answers := 7
    total_questions := 10
    incorrect_answers := none }

/-- A freshly started session on attempt 42, before any submission. -/
def freshSession : SubmitState :=
  { attemptId := some 42
    submitting := false
    quizCompleted := false
    results := none
    errorMsg := none
    completeCalls := 0 }

/-- A session that has already completed once, with its one recorded
complete-attempt call. -/
def completedSession : SubmitState :=
  { attemptId := some 42
    submitting := false
    quizCompleted := true
    results := some sampleResults
    errorMsg := none
    completeCalls := 1 }

/-- A session before the quiz page ever recorded an attempt id. -/
def noAttemptSession : SubmitState :=
  { attemptId := none
    submitting := false
    quizCompleted := false
    results := none
    errorMsg := none
    completeCalls := 0 }

/-! ## Theorems -/

/-- Unfolding of `tick` on a literal state with an armed counter. -/
theorem tick_some (t : Int) (q : Bool) (c : Nat) :
    tick { timeLeft := some t, quizCompleted := q, submitCalls := c } =
      if t > 0 ∧ q = false then
        if t - 1 = 0 then
          { timeLeft := some (t - 1), quizCompleted := q, submitCalls := c + 1 }
        else
          { timeLeft := some (t - 1), quizCompleted := q, submitCalls := c }
      else
        { timeLeft := some t, quizCompleted := q, submitCalls := c } := rfl

/-- Trajectory of the armed timer: after `k` ticks from `m > 0` seconds the
counter reads `m - k` with no submit yet, and from the `m`-th tick on the
state is frozen at zero with exactly one submit. -/
theorem tick_iterate_eq (m : Nat) (hm : 0 < m) (k : Nat) :
    tick^[k] (timerStart m) =
      if k < m then
        { timeLeft := some ((m : Int) - k), quizCompleted := false,
          submitCalls := 0 }
      else
        { timeLeft := some 0, quizCompleted := false, submitCalls := 1 } := by
  induction k with
  | zero =>
      simp [timerStart, hm]
  | succ k ih =>
      rw [Function.iterate_succ_apply', ih]
      by_cases h1 : k < m
      · by_cases h2 : k + 1 < m
        · rw [if_pos h1, if_pos h2, tick_some,
            if_pos (⟨by omega, rfl⟩ :
              ((m : Int) - (k : Int) > 0 ∧ (false : Bool) = false)),
            if_neg (by omega : ¬((m : Int) - (k : Int) - 1 = 0)),
            (by push_cast; ring :
              (m : Int) - (k : Int) - 1 = (m : Int) - ((k + 1 : Nat) : Int))]
        · rw [if_pos h1, if_neg h2, tick_some,
            if_pos (⟨by omega, rfl⟩ :
              ((m : Int) - (k : Int) > 0 ∧ (false : Bool) = false)),
            if_pos (by omega : ((m : Int) - (k : Int) - 1 = 0)),
            (by omega : (m : Int) - (k : Int) - 1 = 0)]
      · rw [if_neg h1, if_neg (by omega : ¬(k + 1 < m)), tick_some,
          if_neg (by simp : ¬((0 : Int) > 0 ∧ (false : Bool) = false))]

/-- C2: with a timer armed at `m > 0` seconds and the attempt staying
uncompleted, the submit count never exceeds one over any number of ticks,
is still zero before the counter reaches zero, and from the `m`-th tick on
the timer sits stopped at zero having fired `submitQuiz()` exactly once; in
particular 60 ticks of a 60-second timer yield exactly one submit. -/
theorem timer_auto_submit_exactly_once (m : Nat) (hm : 0 < m) :
    (∀ n : Nat, (tick^[n] (timerStart m)).submitCalls ≤ 1) ∧
    (∀ n : Nat, n < m → (tick^[n] (timerStart m)).submitCalls = 0) ∧
    (∀ n : Nat, m ≤ n →
      tick^[n] (timerStart m) =
        { timeLeft := some 0, quizCompleted := false, submitCalls := 1 }) := by
  refine ⟨?_, ?_, ?_⟩
  · intro n
    rw [tick_iterate_eq m hm n]
    split <;> simp
  · intro n hn
    rw [tick_iterate_eq m hm n, if_pos hn]
  · intro n hn
    rw [tick_iterate_eq m hm n, if_neg (by omega)]

/-- Witness for C2: ticking exactly 60 times from a 1-minute (60-second)
timer ends stopped at zero with exactly one `submitQuiz()` invocation. -/
theorem timer_auto_submit_exactly_once_witness :
    tick^[60] (timerStart 60) =
      { timeLeft := some 0, quizCompleted := false, submitCalls := 1 } :=
  (timer_auto_submit_exactly_once 60 (by decide)).2.2 60 (by decide)

/-- One tick of the timer preserves nonnegativity of the remaining time. -/
theorem tick_preserves_nonneg (s : TimerState)
    (h : ∀ t, s.timeLeft = some t → 0 ≤ t) :
    ∀ t, (tick s).timeLeft = some t → 0 ≤ t := by
  obtain ⟨tl, q, c⟩ := s
  cases tl with
  | none => exact h
  | some t0 =>
      intro t ht
      rw [tick_some] at ht
      have h0 : 0 ≤ t0 := h t0 rfl
      by_cases hg : (t0 > 0 ∧ q = false)
      · rw [if_pos hg] at ht
        obtain ⟨hg1, _⟩ := hg
        by_cases hz : t0 - 1 = 0
        · rw [if_pos hz] at ht
          simp only [Option.some.injEq] at ht
          omega
        · rw [if_neg hz] at ht
          simp only [Option.some.injEq] at ht
          omega
      · rw [if_neg hg] at ht
        simp only [Option.some.injEq] at ht
        omega

/-- C10: starting from any timer state whose remaining time is nonnegative,
no number of ticks ever makes the remaining time negative, and a timer
sitting at exactly zero is stopped (a further tick changes nothing). -/
theorem remaining_time_never_negative (s : TimerState)
    (h : ∀ t, s.timeLeft = some t → 0 ≤ t) :
    (∀ (n : Nat) (t' : Int), (tick^[n] s).timeLeft = some t' → 0 ≤ t') ∧
    (s.timeLeft = some 0 → tick s = s) := by
  constructor
  · intro n
    induction n generalizing s with
    | zero => exact h
    | succ n ih =>
        intro t' ht'
        rw [Function.iterate_succ_apply] at ht'
        exact ih (tick s) (tick_preserves_nonneg s h) t' ht'
  · intro h0
    obtain ⟨tl, q, c⟩ := s
    simp only at h0
    subst h0
    rw [tick_some, if_neg (by simp : ¬((0 : Int) > 0 ∧ q = false))]

/-- Witness for C10: from a 5-second armed timer, three ticks leave 2
seconds remaining, which is nonnegative. -/
theorem remaining_time_never_negative_witness :
    (tick^[3] (timerStart 5)).timeLeft = some 2 ∧ (0 : Int) ≤ 2 :=
  ⟨by decide,
   (remaining_time_never_negative (timerStart 5)
     (by intro t ht; simp [timerStart] at ht; omega)).1 3 2 (by decide)⟩

/-- C1: a failed start-attempt carrying a 409 `CONCURRENT_ATTEMPT` response
surfaces the existing attempt id as the pending conflict; resuming issues
exactly the single `resumeAttempt` call on that id, records the returned
attempt id and adopts the returned next-question pointer (as its 1-based
number minus one) when provided; restarting issues exactly
`endAttempt(existingId)` then `startAttempt(quizId)` and records the
freshly returned id, which differs from the stale one whenever the backend
returns a fresh id. -/
theorem conflict_resolution_correct (hasResp : Bool)
    (status existingId quizId startResp : Nat) (errCode : Option String)
    (rr : ResumeResponse) (curIdx : Int) :
    (hasResp = true → status = 409 → errCode = some "CONCURRENT_ATTEMPT" →
      classifyStartError hasResp status errCode existingId =
        StartOutcome.conflictPending existingId) ∧
    ((handleConflict quizId existingId true rr startResp curIdx).calls =
        [ApiCall.resumeAttempt existingId] ∧
      (handleConflict quizId existingId true rr startResp curIdx).attemptId =
        rr.attempt_id ∧
      (∀ qn, rr.next_question = some qn →
        (handleConflict quizId existingId true rr startResp
          curIdx).currentQuestionIndex = (qn : Int) - 1)) ∧
    ((handleConflict quizId existingId false rr startResp curIdx).calls =
        [ApiCall.endAttempt existingId, ApiCall.startAttempt quizId] ∧
      (handleConflict quizId existingId false rr startResp curIdx).attemptId =
        startResp ∧
      (startResp ≠ existingId →
        (handleConflict quizId existingId false rr startResp
          curIdx).attemptId ≠ existingId)) := by
  refine ⟨?_, ⟨rfl, rfl, ?_⟩, rfl, rfl, ?_⟩
  · intro h1 h2 h3
    subst h1; subst h2; subst h3
    rfl
  · intro qn hqn
    simp [handleConflict, hqn]
  · intro hne
    simpa [handleConflict] using hne

/-- Witness for C1: with existing attempt id 42 and a fresh start response
43, the conflict is classified as pending on 42; restarting calls
`endAttempt(42)` then `startAttempt(7)` and records 43 ≠ 42; resuming with
a next-question pointer 3 puts the index at 2. -/
theorem conflict_resolution_correct_witness :
    classifyStartError true 409 (some "CONCURRENT_ATTEMPT") 42 =
        StartOutcome.conflictPending 42 ∧
      (handleConflict 7 42 false ⟨42, some 3⟩ 43 0).calls =
        [ApiCall.endAttempt 42, ApiCall.startAttempt 7] ∧
      (handleConflict 7 42 false ⟨42, some 3⟩ 43 0).attemptId ≠ 42 ∧
      (handleConflict 7 42 true ⟨42, some 3⟩ 43 0).currentQuestionIndex = 2 := by
  have h := conflict_resolution_correct true 409 42 7 43
    (some "CONCURRENT_ATTEMPT") ⟨42, some 3⟩ 0
  refine ⟨h.1 rfl rfl rfl, h.2.2.1, h.2.2.2.2 (by decide), ?_⟩
  have := h.2.1.2.2 3 rfl
  simpa using this

/-- C3 counterexample: `submitQuiz` has no completed-state guard — after a
first successful completion (state `Completed`, one complete call), a
second invocation issues a second complete-attempt network call instead of
being a no-op. -/
theorem submit_not_idempotent_counterexample :
    ((submitQuiz freshSession
      (CompleteResponse.ok sampleResults)).quizCompleted = true) ∧
    ((submitQuiz freshSession
      (CompleteResponse.ok sampleResults)).completeCalls = 1) ∧
    ((submitQuiz
        (submitQuiz freshSession (CompleteResponse.ok sampleResults))
        (CompleteResponse.ok sampleResults)).completeCalls = 2) := by
  exact ⟨rfl, rfl, rfl⟩

/-- C3 amended: `submitQuiz` is guarded only on the presence of an attempt
id — with no recorded attempt id it is a no-op, and whenever an attempt id
is recorded every invocation issues a complete-attempt network call,
regardless of the `quizCompleted` or `submitting` flags; double-submit
suppression lives only in the callers (the timer fires at most once and the
UI disables the submit button while submitting). -/
theorem submit_guard_is_attempt_id_only (s : SubmitState)
    (resp : CompleteResponse) (aid : Nat) :
    (s.attemptId = none → submitQuiz s resp = s) ∧
    (s.attemptId = some aid →
      (submitQuiz s resp).completeCalls = s.completeCalls + 1) := by
  constructor
  · intro h
    unfold submitQuiz
    rw [h]
  · intro h
    unfold submitQuiz
    rw [h]
    cases resp <;> rfl

/-- Witness for C3's amended statement: on an already-completed state with
one recorded complete call, a further `submitQuiz` brings the call count to
two, and a state without an attempt id is left unchanged. -/
theorem submit_guard_is_attempt_id_only_witness :
    ((submitQuiz completedSession
      (CompleteResponse.ok sampleResults)).completeCalls = 2) ∧
    (submitQuiz noAttemptSession (CompleteResponse.ok sampleResults) =
      noAttemptSession) := by
  constructor
  · exact (submit_guard_is_attempt_id_only completedSession _ 42).2 rfl
  · exact (submit_guard_is_attempt_id_only noAttemptSession
      (CompleteResponse.ok sampleResults) 0).1 rfl

/-- C4 counterexample: a transient network failure of the complete call (an
axios error with no response status) does not revert the session to the
active quiz view — the error message is set and the component renders the
failed view, from which no retry of the attempt is possible. -/
theorem submit_failure_counterexample :
    renderState (submitQuiz freshSession (CompleteResponse.err none)) =
      ViewState.failedView ∧
    renderState (submitQuiz freshSession (CompleteResponse.err none)) ≠
      ViewState.activeView := by
  exact ⟨rfl, by decide⟩

/-- C4 amended: whenever the complete-attempt call fails — for any failure
kind, a missing-attempt status included — `submitQuiz` clears `submitting`
(the state never remains stuck in `Submitting`), sets the error message,
and the component renders the failed view with its back-to-dashboard
button; it does not revert to `Active`, and failure kinds are not
distinguished. -/
theorem submit_failure_shows_failed_view (s : SubmitState) (aid : Nat)
    (st : Option Nat) (h : s.attemptId = some aid) :
    (submitQuiz s (CompleteResponse.err st)).submitting = false ∧
    (submitQuiz s (CompleteResponse.err st)).errorMsg =
      some "Failed to submit quiz" ∧
    renderState (submitQuiz s (CompleteResponse.err st)) =
      ViewState.failedView ∧
    (submitQuiz s (CompleteResponse.err st)).quizCompleted =
      s.quizCompleted := by
  unfold submitQuiz
  rw [h]
  refine ⟨rfl, rfl, ?_, rfl⟩
  unfold renderState
  simp

/-- Witness for C4's amended statement: a concrete active session whose
complete call fails with a 404 ends in the failed view, not submitting. -/
theorem submit_failure_shows_failed_view_witness :
    (submitQuiz freshSession (CompleteResponse.err (some 404))).submitting =
      false ∧
    renderState (submitQuiz freshSession (CompleteResponse.err (some 404))) =
      ViewState.failedView := by
  have h := submit_failure_shows_failed_view freshSession 42 (some 404) rfl
  exact ⟨h.1, h.2.2.1⟩

/-- C5: the countdown is armed from the `timer` query parameter when it
parses to a positive integer `m` (giving `m * 60` seconds); otherwise — the
parameter absent, non-numeric, zero or negative — it falls back to the
quiz's configured positive time limit `t` (giving `t * 60` seconds), and
with no configured limit no timer is armed. -/
theorem timer_arming_precedence (p : Option String) (tl : Option Int)
    (m t : Int) :
    (jsParseInt p = some m → 0 < m → armTimer p tl = some (m * 60)) ∧
    (jsParseInt p = none → tl = some t → 0 < t →
      armTimer p tl = some (t * 60)) ∧
    (jsParseInt p = some m → m ≤ 0 → tl = some t → 0 < t →
      armTimer p tl = some (t * 60)) ∧
    (jsParseInt p = none → tl = none → armTimer p tl = none) ∧
    (jsParseInt p = some m → m ≤ 0 → tl = none → armTimer p tl = none) := by
  refine ⟨?_, ?_, ?_, ?_, ?_⟩
  · intro hp hm
    unfold armTimer
    rw [hp]
    simp [hm]
  · intro hp htl ht
    unfold armTimer
    rw [hp, htl]
    have ht' : t ≠ 0 := by omega
    simp [timeLimitTruthy, ht']
  · intro hp hm htl ht
    unfold armTimer
    rw [hp, htl]
    have hm' : ¬(m > 0) := by omega
    have ht' : t ≠ 0 := by omega
    simp [timeLimitTruthy, hm', ht']
  · intro hp htl
    unfold armTimer
    rw [hp, htl]
    simp [timeLimitTruthy]
  · intro hp hm htl
    unfold armTimer
    rw [hp, htl]
    have hm' : ¬(m > 0) := by omega
    simp [timeLimitTruthy, hm']

/-- Witness for C5: `timer=5` arms 300 seconds over a 3-minute quiz limit;
`timer=abc`, `timer=0` and an absent parameter fall back to the 3-minute
limit (180 seconds); an absent parameter with no quiz limit arms nothing. -/
theorem timer_arming_precedence_witness :
    armTimer (some "5") (some 3) = some 300 ∧
    armTimer (some "abc") (some 3) = some 180 ∧
    armTimer (some "0") (some 3) = some 180 ∧
    armTimer none (some 3) = some 180 ∧
    armTimer none none = none := by
  refine ⟨?_, ?_, ?_, ?_, ?_⟩
  · exact (timer_arming_precedence (some "5") (some 3) 5 3).1 (by decide)
      (by decide)
  · exact (timer_arming_precedence (some "abc") (some 3) 0 3).2.1 (by decide)
      rfl (by decide)
  · exact (timer_arming_precedence (some "0") (some 3) 0 3).2.2.1 (by decide)
      (by decide) rfl (by decide)
  · exact (timer_arming_precedence none (some 3) 0 3).2.1 (by decide) rfl
      (by decide)
  · exact (timer_arming_precedence none none 0 3).2.2.2.1 (by decide) rfl

/-- One navigation action keeps a valid index valid, given that any jump
targets an existing question. -/
theorem navigate_preserves_bounds (count : Int) (op : NavOp) (idx : Int)
    (hlo : 0 ≤ idx) (hhi : idx < count)
    (hjump : ∀ i, op = NavOp.jump i → (i : Int) < count) :
    0 ≤ navigate count op idx ∧ navigate count op idx < count := by
  cases op with
  | next =>
      simp only [navigate]
      unfold handleNextQuestion
      split <;> omega
  | prev =>
      simp only [navigate]
      unfold handlePreviousQuestion
      split <;> omega
  | jump i =>
      have hi := hjump i rfl
      simp only [navigate]
      exact ⟨Int.natCast_nonneg i, hi⟩

/-- C6: starting from any valid current-question index, any sequence of
Previous/Next/overview-jump actions keeps the index within
`[0, questionCount - 1]`; Previous at index 0 and Next at the last index
leave the index unchanged, and no navigation action issues a network
call. -/
theorem navigation_stays_in_bounds (count : Int)
    (ops : List NavOp) (hops : ∀ i, NavOp.jump i ∈ ops → (i : Int) < count)
    (start : Int) (hlo : 0 ≤ start) (hhi : start < count) :
    (0 ≤ navFold count ops start ∧ navFold count ops start < count) ∧
    handleNextQuestion count (count - 1) = count - 1 ∧
    handlePreviousQuestion 0 = 0 ∧
    (∀ op : NavOp, navigateCalls op = []) := by
  refine ⟨?_, ?_, ?_, fun op => rfl⟩
  · induction ops generalizing start with
    | nil => exact ⟨hlo, hhi⟩
    | cons op rest ih =>
        have hstep := navigate_preserves_bounds count op start hlo hhi
          (fun i hi => hops i (by rw [hi]; exact List.mem_cons_self _ _))
        have hrest : ∀ i, NavOp.jump i ∈ rest → (i : Int) < count :=
          fun i hi => hops i (List.mem_cons_of_mem _ hi)
        exact ih hrest (navigate count op start) hstep.1 hstep.2
  · unfold handleNextQuestion
    rw [if_neg (by omega)]
  · unfold handlePreviousQuestion
    rw [if_neg (by omega)]

/-- Witness for C6: on a 3-question quiz, pressing Next three times from the
first question, then Previous, then jumping to question 3, then Previous
four times ends on a valid index, and the edge moves are no-ops. -/
theorem navigation_stays_in_bounds_witness :
    (0 ≤ navFold 3
        [NavOp.next, NavOp.next, NavOp.next, NavOp.prev, NavOp.jump 2,
          NavOp.prev, NavOp.prev, NavOp.prev, NavOp.prev] 0 ∧
      navFold 3
        [NavOp.next, NavOp.next, NavOp.next, NavOp.prev, NavOp.jump 2,
          NavOp.prev, NavOp.prev, NavOp.prev, NavOp.prev] 0 < 3) ∧
    handleNextQuestion 3 (3 - 1) = 3 - 1 ∧
    handlePreviousQuestion 0 = 0 ∧
    (∀ op : NavOp, navigateCalls op = []) := by
  exact navigation_stays_in_bounds 3
    [NavOp.next, NavOp.next, NavOp.next, NavOp.prev, NavOp.jump 2,
      NavOp.prev, NavOp.prev, NavOp.prev, NavOp.prev]
    (by intro i hi; simp at hi; omega) 0 (by decide) (by decide)

/-- C7: recording an answer updates the local answer mapping synchronously;
completions of the asynchronous submit-answer calls — success or failure,
in any order — never change the local mapping, so after recording answer
`a` then answer `b` for the same question the displayed answer is `b`
regardless of how the network responses arrive. -/
theorem record_answer_last_write_wins (attemptId : Nat) (s : AnswerState)
    (q a b : Nat) (resps : List Bool) :
    ((resps.foldl (fun st r => submitAnswerResult r st)
        (handleAnswerChange attemptId (handleAnswerChange attemptId s q a)
          q b)).answers q = some b) ∧
    (∀ (success : Bool) (st : AnswerState),
      (submitAnswerResult success st).answers = st.answers) := by
  constructor
  · have hfold : ∀ (l : List Bool) (st : AnswerState),
        l.foldl (fun st r => submitAnswerResult r st) st = st := by
      intro l
      induction l with
      | nil => intro st; rfl
      | cons x xs ih => intro st; exact ih st
    rw [hfold]
    simp [handleAnswerChange]
  · intro _ _
    rfl

/-- C8: the incorrect count shown on the results page is the backend's
explicit `incorrect_answers` when supplied, and `total_questions -
correct_answers` when the field is absent. -/
theorem incorrect_count_derivation (r : ScoreResults) :
    (r.incorrect_answers = none →
      displayedIncorrect r = r.total_questions - r.correct_answers) ∧
    (∀ v, r.incorrect_answers = some v → displayedIncorrect r = v) := by
  constructor
  · intro h
    simp [displayedIncorrect, h]
  · intro v h
    simp [displayedIncorrect, h]

/-- Witness for C8: a summary with 7 correct out of 10 and no explicit
incorrect field displays 3 incorrect, and an explicit field of 2 is used
unchanged. -/
theorem incorrect_count_derivation_witness :
    displayedIncorrect sampleResults = 3 ∧
    displayedIncorrect { sampleResults with incorrect_answers := some 2 } =
      2 := by
  constructor
  · have h := (incorrect_count_derivation sampleResults).1 rfl
    simpa [sampleResults] using h
  · exact (incorrect_count_derivation
      { sampleResults with incorrect_answers := some 2 }).2 2 rfl

/-- C9: every submit-answer request issued by `handleAnswerChange` carries
the constant `response_time` of 5000 milliseconds, for every attempt,
question and selected option. -/
theorem answer_response_time_constant (attemptId : Nat) (s : AnswerState)
    (q a : Nat) :
    (handleAnswerChange attemptId s q a).calls =
      s.calls ++ [ApiCall.submitAnswer attemptId q a 5000] := rfl

end QuizCanvas
